import Mathlib

/-!
Shallow embedding of the SeekWell skin-lesion triage core:
the risk-assessment engine (`backend/ai/models/model_config.py`,
`backend/ai/services/prediction_service.py`,
`backend/ai/models/skin_cancer_classifier.py`) and the case lifecycle and
review queues (`backend/app/routers/cadre.py`, `backend/app/crud.py`,
`backend/app/routers/skin_lesions.py`,
`backend/app/services/lesion_service.py`).
Confidences are modelled as rationals; labels, regions as strings.
-/

namespace SeekWell

/-- Risk tiers produced by the engine (`RISK_LEVELS` values plus the
`UNCERTAIN` fallback). -/
inductive RiskTier
  | LOW
  | MEDIUM
  | HIGH
  | URGENT
  | UNCERTAIN
deriving DecidableEq, Repr

/-- Confidence buckets returned by `get_confidence_level`. -/
inductive ConfidenceTier
  | VERY_LOW
  | LOW
  | MEDIUM
  | HIGH
deriving DecidableEq, Repr

/-- The six catalog labels, the values of `CLASS_LABELS` in
`model_config.py`. -/
def classLabels : List String :=
  ["ACK (Actinic keratoses)",
   "BCC (Basal cell carcinoma)",
   "MEL (Melanoma)",
   "NEV (Nevus/Mole)",
   "SCC (Squamous cell carcinoma)",
   "SEK (Seborrheic keratosis)"]

/-- The `RISK_LEVELS` dict of `model_config.py`: catalog label to base
risk tier; `none` for a key not in the dict. -/
def riskLevels (label : String) : Option RiskTier :=
  if label = "ACK (Actinic keratoses)" then some .MEDIUM
  else if label = "BCC (Basal cell carcinoma)" then some .HIGH
  else if label = "MEL (Melanoma)" then some .URGENT
  else if label = "NEV (Nevus/Mole)" then some .LOW
  else if label = "SCC (Squamous cell carcinoma)" then some .HIGH
  else if label = "SEK (Seborrheic keratosis)" then some .LOW
  else none

/-- `CONFIDENCE_THRESHOLDS["LOW_CONFIDENCE"]`. -/
def LOW_CONFIDENCE : ℚ := 2/5

/-- `CONFIDENCE_THRESHOLDS["MEDIUM_CONFIDENCE"]`. -/
def MEDIUM_CONFIDENCE : ℚ := 3/5

/-- `CONFIDENCE_THRESHOLDS["HIGH_CONFIDENCE"]`. -/
def HIGH_CONFIDENCE : ℚ := 4/5

/-- `RISK_ASSESSMENT_CONFIG["urgent_threshold"]`. -/
def urgent_threshold : ℚ := 3/10

/-- `RISK_ASSESSMENT_CONFIG["high_risk_regions"]`. -/
def high_risk_regions : List String :=
  ["face", "neck", "hands", "feet", "genitals"]

/-- ASCII lowering of one character, the effect of Python's `str.lower`
on the region strings this code compares. -/
def lowerChar (c : Char) : Char :=
  if 65 ≤ c.toNat ∧ c.toNat ≤ 90 then Char.ofNat (c.toNat + 32) else c

/-- Python's `str.lower` on ASCII strings. -/
def lowerString (s : String) : String :=
  String.mk (s.toList.map lowerChar)

/-- The Python guard `body_region and body_region.lower() in
RISK_ASSESSMENT_CONFIG["high_risk_regions"]` (an empty string is falsy). -/
def isHighRiskRegion : Option String → Bool
  | none => false
  | some r => !r.isEmpty && high_risk_regions.contains (lowerString r)

/-- Substring test on character lists, used to embed Python's
`"MEL" in predicted_class`. -/
def listContainsSub (needle : List Char) : List Char → Bool
  | [] => needle.isEmpty
  | c :: rest => needle.isPrefixOf (c :: rest) || listContainsSub needle rest

/-- Python's `"MEL" in predicted_class`. -/
def hasMEL (label : String) : Bool :=
  listContainsSub "MEL".toList label.toList

/-- The in-place region upgrade of `get_risk_level` (`model_config.py`
lines 124-129): `LOW` to `MEDIUM`, `MEDIUM` to `HIGH`, all else kept. -/
def regionEscalate : RiskTier → RiskTier
  | .LOW => .MEDIUM
  | .MEDIUM => .HIGH
  | t => t

/-- `get_risk_level` of `model_config.py` (lines 110-139): base risk from
`RISK_LEVELS` with default `UNCERTAIN`, region upgrade, then the
low-confidence gate, then the melanoma urgent override. -/
def get_risk_level (predicted_class : String) (confidence : ℚ)
    (body_region : Option String) : RiskTier :=
  let base_risk := (riskLevels predicted_class).getD .UNCERTAIN
  let base_risk :=
    if isHighRiskRegion body_region then regionEscalate base_risk else base_risk
  if confidence < LOW_CONFIDENCE then .UNCERTAIN
  else if hasMEL predicted_class = true ∧ urgent_threshold < confidence then .URGENT
  else base_risk

/-- `get_confidence_level` of `model_config.py`, identical to
`SkinLesionPredictor._get_confidence_level`. -/
def get_confidence_level (confidence : ℚ) : ConfidenceTier :=
  if HIGH_CONFIDENCE ≤ confidence then .HIGH
  else if MEDIUM_CONFIDENCE ≤ confidence then .MEDIUM
  else if LOW_CONFIDENCE ≤ confidence then .LOW
  else .VERY_LOW

/-- The risk-assessment dictionary built by
`SkinLesionPredictor._assess_risk`. -/
structure RiskAssessmentOut where
  risk_level : RiskTier
  confidence_level : ConfidenceTier
  needs_professional_review : Bool
  needs_urgent_attention : Bool
  base_risk : RiskTier
deriving DecidableEq, Repr

/-- `SkinLesionPredictor._assess_risk` (`prediction_service.py` lines
117-163): base risk from `RISK_LEVELS` with default `MEDIUM`, the
confidence adjustment, then the body-region step, which only upgrades
`LOW` to `MEDIUM` and forces review. -/
def assess_risk (label : String) (confidence : ℚ)
    (body_region : Option String) : RiskAssessmentOut :=
  let base_risk := (riskLevels label).getD .MEDIUM
  let step1 : RiskTier × Bool :=
    if confidence < LOW_CONFIDENCE then (.UNCERTAIN, true)
    else if confidence < MEDIUM_CONFIDENCE then (base_risk, true)
    else (base_risk, base_risk == .HIGH || base_risk == .URGENT)
  let step2 : RiskTier × Bool :=
    if isHighRiskRegion body_region then
      ((if step1.1 = .LOW then .MEDIUM else step1.1), true)
    else step1
  { risk_level := step2.1
    confidence_level := get_confidence_level confidence
    needs_professional_review := step2.2
    needs_urgent_attention := step2.1 == .URGENT
    base_risk := base_risk }

/-- `SkinCancerClassifier._get_follow_up_days`:
`RISK_ASSESSMENT_CONFIG["follow_up_days"].get(risk_level, 30)`; the dict
has no `UNCERTAIN` key, so `UNCERTAIN` takes the default 30. -/
def get_follow_up_days : RiskTier → Nat
  | .URGENT => 1
  | .HIGH => 7
  | .MEDIUM => 30
  | .LOW => 90
  | .UNCERTAIN => 30

/-- The `estimated_follow_up_days` expression of `get_analysis_history`
(`skin_lesions.py` line 162): `30 if risk_level == 'LOW' else 14 if
risk_level == 'MEDIUM' else 7`. -/
def estimated_follow_up_days_history (risk_level : RiskTier) : Nat :=
  if risk_level = .LOW then 30 else if risk_level = .MEDIUM then 14 else 7

/-! Case lifecycle: rows of the `skin_lesion_images`, `cadre_reviews`,
`doctor_consultations` and `ai_assessments` tables (`app/models.py`),
and the operations of `app/routers/cadre.py` and `app/crud.py` on them.
Timestamps are Nats; the database is a list of lesion rows, each carrying
its joined assessment and its review and consultation rows. -/

/-- The `status` column of `skin_lesion_images`. -/
inductive LesionStatus
  | pending
  | reviewed
  | escalated
  | completed
deriving DecidableEq, Repr

/-- A `cadre_reviews` row (fields set by `submit_cadre_review`). -/
structure CadreReviewRow where
  cadre_id : Nat
  review_notes : String
  agrees_with_ai : Bool
  escalate_to_doctor : Bool
deriving DecidableEq, Repr

/-- A `doctor_consultations` row (fields set by
`create_doctor_consultation`). -/
structure DoctorConsultationRow where
  doctor_id : Nat
  diagnosis : String
  treatment_plan : String
  urgency_level : String
  requires_specialist : Bool
  follow_up_days : Option Nat
deriving DecidableEq, Repr

/-- The joined `ai_assessments` row: its risk level and creation time. -/
structure AIAssessmentRow where
  risk_level : RiskTier
  created_at : Nat
deriving DecidableEq, Repr

/-- A `skin_lesion_images` row together with its assessment, reviews and
consultations. -/
structure LesionCase where
  image_id : Nat
  patient_id : Nat
  upload_timestamp : Nat
  body_region : Option String
  status : LesionStatus
  reviewed_by_cadre : Option Nat
  reviewed_by_doctor : Option Nat
  needs_professional_review : Bool
  ai_assessment : AIAssessmentRow
  reviews : List CadreReviewRow
  consultations : List DoctorConsultationRow
deriving DecidableEq, Repr

/-- The whole lesion table. -/
abbrev LesionDB := List LesionCase

/-- The request body of the cadre review endpoint
(`CadreReviewCreate` in `app/schemas.py`). -/
structure CadreReviewCreate where
  review_notes : String
  agrees_with_ai : Bool
  escalate_to_doctor : Bool
deriving DecidableEq, Repr

/-- The request body of `create_doctor_consultation`. -/
structure DoctorConsultationCreate where
  diagnosis : String
  treatment_plan : String
  urgency_level : String
  requires_specialist : Bool
  follow_up_days : Option Nat
deriving DecidableEq, Repr

/-- The filter of the query in `submit_cadre_review` (`cadre.py` lines
116-119): matching id and status `'pending'`. -/
def isPendingWithId (image_id : Nat) (c : LesionCase) : Bool :=
  c.image_id == image_id && c.status == .pending

/-- The mutation performed on the matched row by `submit_cadre_review`
(`cadre.py` lines 128-146): insert the review row, set
`reviewed_by_cadre`, and set status `'escalated'` (also forcing
`needs_professional_review`) or `'reviewed'` per `escalate_to_doctor`. -/
def applyCadreReview (c : LesionCase) (cadre_id : Nat)
    (d : CadreReviewCreate) : LesionCase :=
  let c := { c with
    reviews := c.reviews ++
      [(⟨cadre_id, d.review_notes, d.agrees_with_ai,
         d.escalate_to_doctor⟩ : CadreReviewRow)]
    reviewed_by_cadre := some cadre_id }
  if d.escalate_to_doctor then
    { c with status := .escalated, needs_professional_review := true }
  else
    { c with status := .reviewed }

/-- Errors surfaced by the routers: the 404 of `submit_cadre_review`
("not found or already reviewed"); other failures become a 500. -/
inductive ApiError
  | notFound
  | internalError
deriving DecidableEq, Repr

/-- Row transformer of the cadre review endpoint: only the queried
pending row with the given id is mutated. -/
def cadreRowUpdate (image_id cadre_id : Nat) (d : CadreReviewCreate)
    (c : LesionCase) : LesionCase :=
  if isPendingWithId image_id c then applyCadreReview c cadre_id d else c

/-- `submit_cadre_review` of `app/routers/cadre.py` (lines 104-164): look
up a row with the given id in status `'pending'`; 404 when absent,
otherwise commit the review and status change. -/
def submit_cadre_review (db : LesionDB) (image_id cadre_id : Nat)
    (d : CadreReviewCreate) : Except ApiError LesionDB :=
  match db.find? (isPendingWithId image_id) with
  | none => .error .notFound
  | some _ => .ok (db.map (cadreRowUpdate image_id cadre_id d))

/-- Row transformer of `update_skin_lesion_status` (`crud.py` lines
843-852): set the requested status unconditionally on the matching row;
additionally set `reviewed_by_cadre` when a reviewer is given and the new
status is `'reviewed'` or `'completed'`. -/
def updateStatusRow (image_id : Nat) (st : LesionStatus)
    (reviewed_by : Option Nat) (c : LesionCase) : LesionCase :=
  if c.image_id == image_id then
    let c := { c with status := st }
    if reviewed_by.isSome && (st == .reviewed || st == .completed) then
      { c with reviewed_by_cadre := reviewed_by }
    else c
  else c

/-- `update_skin_lesion_status` of `app/crud.py`: no precondition on the
current status. -/
def update_skin_lesion_status (db : LesionDB) (image_id : Nat)
    (st : LesionStatus) (reviewed_by : Option Nat) : LesionDB :=
  db.map (updateStatusRow image_id st reviewed_by)

/-- Row transformer of `create_doctor_consultation` (`crud.py` lines
904-928): append the consultation, set `reviewed_by_doctor` and status
`'completed'` on the matching row, with no precondition. -/
def doctorConsultApply (image_id doctor_id : Nat)
    (d : DoctorConsultationCreate) (c : LesionCase) : LesionCase :=
  if c.image_id == image_id then
    { c with
      consultations := c.consultations ++
        [⟨doctor_id, d.diagnosis, d.treatment_plan, d.urgency_level,
          d.requires_specialist, d.follow_up_days⟩]
      reviewed_by_doctor := some doctor_id
      status := .completed }
  else c

/-- `create_doctor_consultation` of `app/crud.py`: always succeeds and
returns the inserted consultation; here the updated table. -/
def create_doctor_consultation (db : LesionDB) (image_id doctor_id : Nat)
    (d : DoctorConsultationCreate) : LesionDB :=
  db.map (doctorConsultApply image_id doctor_id d)

/-- `submit_doctor_consultation` of `app/routers/skin_lesions.py` (lines
234-266): while building its response payload the handler calls
`lesion_service._get_current_timestamp()` (line 255), a method that does
not exist on `SkinLesionService` (`lesion_service.py`; it exists only on
`AIIntegrationService`). The resulting `AttributeError` is caught by the
blanket `except` and becomes an HTTP 500, so the endpoint fails on every
call, for any `analysis_id`, and performs no database read or write. -/
def router_submit_doctor_consultation (db : LesionDB)
    (analysis_id doctor_id : Nat) (diagnosis treatment_plan : String)
    (follow_up_days : Option Nat) : Except ApiError LesionDB :=
  .error .internalError

/-- `get_pending_reviews` of `app/routers/cadre.py` (lines 15-57): filter
status `'pending'` and `reviewed_by_cadre IS NULL`; the query has no
`order_by`, so storage order is kept. -/
def get_pending_reviews (db : LesionDB) : LesionDB :=
  db.filter (fun c => c.status == .pending && c.reviewed_by_cadre.isNone)

/-- Comparison used to embed `ORDER BY ai_assessments.created_at DESC`. -/
def createdGE (a b : LesionCase) : Prop :=
  b.ai_assessment.created_at ≤ a.ai_assessment.created_at

instance : DecidableRel createdGE := fun a b =>
  Nat.decLe b.ai_assessment.created_at a.ai_assessment.created_at

instance : IsTotal LesionCase createdGE :=
  ⟨fun a b => by unfold createdGE; exact Nat.le_total _ _⟩

instance : IsTrans LesionCase createdGE :=
  ⟨fun _ _ _ hab hbc => Nat.le_trans hbc hab⟩

/-- `get_urgent_reviews` of `app/routers/cadre.py` (lines 59-102): filter
pending, unclaimed, risk in `{URGENT, HIGH}`, ordered by assessment
creation time descending (most recent first). -/
def get_urgent_reviews (db : LesionDB) : LesionDB :=
  List.insertionSort createdGE
    (db.filter (fun c => c.status == .pending &&
      (c.ai_assessment.risk_level == .URGENT ||
       c.ai_assessment.risk_level == .HIGH) &&
      c.reviewed_by_cadre.isNone))

/-- The `priority_order` map of
`SkinLesionService.get_risk_priority_queue` (`lesion_service.py`):
URGENT 1, HIGH 2, MEDIUM 3, LOW 4, UNCERTAIN 2. -/
def lesionServicePriorityOrder : RiskTier → Nat
  | .URGENT => 1
  | .HIGH => 2
  | .MEDIUM => 3
  | .LOW => 4
  | .UNCERTAIN => 2

/-- `SkinLesionService.get_risk_priority_queue` (`lesion_service.py`
lines 100-134) is a placeholder: whatever the filter, the returned
`pending_reviews` list is empty. -/
def get_risk_priority_queue_pending
    (risk_levels : Option (List RiskTier)) : LesionDB :=
  []

/-- The invariant behind "at most one CadreReview per case" under the
cadre endpoint: a pending case has no review yet, and no case has more
than one. -/
def cadreInv (c : LesionCase) : Prop :=
  (c.status = .pending → c.reviews = []) ∧ c.reviews.length ≤ 1

/-- `cadreInv` over the whole table. -/
def dbCadreInv (db : LesionDB) : Prop := ∀ c ∈ db, cadreInv c

/-- Run a sequence of cadre review submissions; a failed submission
leaves the table as it was (the handler rolls back). -/
def run_cadre_reviews (db : LesionDB) :
    List (Nat × Nat × CadreReviewCreate) → LesionDB
  | [] => db
  | (image_id, cadre_id, d) :: rest =>
      match submit_cadre_review db image_id cadre_id d with
      | .ok db2 => run_cadre_reviews db2 rest
      | .error _ => run_cadre_reviews db rest

/-- The read phase of the cadre review handler: the row snapshot passes
the `status == 'pending'` filter. -/
def cadre_review_check (c : LesionCase) : Bool :=
  c.status == .pending

/-- Two cadre review transactions on the same case, serialized: the
second one reads the first one's committed write. -/
def race_serialized (c : LesionCase) (r1 r2 : Nat)
    (d1 d2 : CadreReviewCreate) : Bool × Bool × LesionCase :=
  let ok1 := cadre_review_check c
  let c1 := if ok1 then applyCadreReview c r1 d1 else c
  let ok2 := cadre_review_check c1
  let c2 := if ok2 then applyCadreReview c1 r2 d2 else c1
  (ok1, ok2, c2)

/-- Two cadre review transactions on the same case, overlapped: both read
the same initial snapshot before either write commits (the handler has no
conditional update or row lock), then both apply their writes; the second
insert adds a second review row and the second update overwrites the
reviewer and status fields. -/
def race_both_read_first (c : LesionCase) (r1 r2 : Nat)
    (d1 d2 : CadreReviewCreate) : Bool × Bool × LesionCase :=
  let ok1 := cadre_review_check c
  let ok2 := cadre_review_check c
  let c1 := if ok1 then applyCadreReview c r1 d1 else c
  let c2 := if ok2 then applyCadreReview c1 r2 d2 else c1
  (ok1, ok2, c2)

/-! Concrete fixture rows used to instantiate the theorems below. -/

/-- Fixture: a freshly uploaded pending case, no reviewer, no reviews. -/
def freshCase : LesionCase :=
  { image_id := 1, patient_id := 100, upload_timestamp := 10,
    body_region := some "face", status := .pending,
    reviewed_by_cadre := none, reviewed_by_doctor := none,
    needs_professional_review := true, ai_assessment := ⟨.URGENT, 10⟩,
    reviews := [], consultations := [] }

/-- Fixture: a case already completed by doctor 7, carrying one review and
one consultation. -/
def completedCase : LesionCase :=
  { image_id := 9, patient_id := 101, upload_timestamp := 5,
    body_region := none, status := .completed,
    reviewed_by_cadre := some 3, reviewed_by_doctor := some 7,
    needs_professional_review := false, ai_assessment := ⟨.HIGH, 5⟩,
    reviews := [⟨3, "agree", true, true⟩],
    consultations := [⟨7, "dx", "plan", "moderate", false, some 7⟩] }

/-- Fixture: the older of two urgent pending cases (times 1). -/
def urgentOld : LesionCase :=
  { image_id := 21, patient_id := 102, upload_timestamp := 1,
    body_region := none, status := .pending,
    reviewed_by_cadre := none, reviewed_by_doctor := none,
    needs_professional_review := true, ai_assessment := ⟨.URGENT, 1⟩,
    reviews := [], consultations := [] }

/-- Fixture: the newer of two urgent pending cases (times 2). -/
def urgentNew : LesionCase :=
  { image_id := 22, patient_id := 103, upload_timestamp := 2,
    body_region := none, status := .pending,
    reviewed_by_cadre := none, reviewed_by_doctor := none,
    needs_professional_review := true, ai_assessment := ⟨.URGENT, 2⟩,
    reviews := [], consultations := [] }

/-- Fixture: a low-risk pending case, stored before the urgent ones. -/
def lowOld : LesionCase :=
  { image_id := 23, patient_id := 104, upload_timestamp := 1,
    body_region := none, status := .pending,
    reviewed_by_cadre := none, reviewed_by_doctor := none,
    needs_professional_review := false, ai_assessment := ⟨.LOW, 1⟩,
    reviews := [], consultations := [] }

end SeekWell

/-! Helper lemmas: evaluations of the catalog tables on concrete labels
and regions, and general facts about the two risk functions shared by the
claim theorems below. -/

namespace SeekWell

theorem isHighRiskRegion_none : isHighRiskRegion none = false := rfl

theorem isHighRiskRegion_face : isHighRiskRegion (some "face") = true := by decide

theorem riskLevels_ACK : riskLevels "ACK (Actinic keratoses)" = some .MEDIUM := by decide

theorem riskLevels_BCC : riskLevels "BCC (Basal cell carcinoma)" = some .HIGH := by decide

theorem riskLevels_MEL : riskLevels "MEL (Melanoma)" = some .URGENT := by decide

theorem riskLevels_NEV : riskLevels "NEV (Nevus/Mole)" = some .LOW := by decide

theorem riskLevels_SCC : riskLevels "SCC (Squamous cell carcinoma)" = some .HIGH := by decide

theorem riskLevels_SEK : riskLevels "SEK (Seborrheic keratosis)" = some .LOW := by decide

theorem hasMEL_ACK : hasMEL "ACK (Actinic keratoses)" = false := by decide

theorem hasMEL_BCC : hasMEL "BCC (Basal cell carcinoma)" = false := by decide

theorem hasMEL_MEL : hasMEL "MEL (Melanoma)" = true := by decide

theorem hasMEL_NEV : hasMEL "NEV (Nevus/Mole)" = false := by decide

theorem hasMEL_SCC : hasMEL "SCC (Squamous cell carcinoma)" = false := by decide

theorem hasMEL_SEK : hasMEL "SEK (Seborrheic keratosis)" = false := by decide

/-- Below the 0.4 gate, `get_risk_level` answers `UNCERTAIN` for every
label and region. -/
theorem get_risk_level_gate (label : String) (conf : ℚ) (region : Option String)
    (h : conf < LOW_CONFIDENCE) : get_risk_level label conf region = .UNCERTAIN := by
  unfold get_risk_level
  simp only [if_pos h]

/-- Below the 0.4 gate, `_assess_risk` answers `UNCERTAIN` and flags
review, for every label and region. -/
theorem assess_risk_gate (label : String) (conf : ℚ) (region : Option String)
    (h : conf < LOW_CONFIDENCE) :
    (assess_risk label conf region).risk_level = .UNCERTAIN ∧
    (assess_risk label conf region).needs_professional_review = true := by
  unfold assess_risk
  simp only [if_pos h]
  by_cases hr : isHighRiskRegion region <;> simp [hr]

/-- Closed form of the `risk_level` field of `_assess_risk`: the
0.4-to-0.6 band only changes the review flag, not the tier. -/
theorem assess_risk_closed (label : String) (conf : ℚ) (region : Option String) :
    (assess_risk label conf region).risk_level =
      (if isHighRiskRegion region then
        (if (if conf < LOW_CONFIDENCE then RiskTier.UNCERTAIN
             else (riskLevels label).getD .MEDIUM) = .LOW then RiskTier.MEDIUM
         else (if conf < LOW_CONFIDENCE then RiskTier.UNCERTAIN
               else (riskLevels label).getD .MEDIUM))
       else (if conf < LOW_CONFIDENCE then RiskTier.UNCERTAIN
             else (riskLevels label).getD .MEDIUM)) := by
  unfold assess_risk
  by_cases h1 : conf < LOW_CONFIDENCE <;> by_cases h2 : conf < MEDIUM_CONFIDENCE <;>
    by_cases hr : isHighRiskRegion region <;> simp [h1, h2, hr]

/-- At or above the 0.4 gate, a high-risk region moves the answer of
`get_risk_level` exactly one `regionEscalate` step above the
region-free answer. -/
theorem get_risk_level_region_escalate (label : String) (conf : ℚ)
    (region : Option String) (h : ¬ conf < LOW_CONFIDENCE)
    (hr : isHighRiskRegion region = true) :
    get_risk_level label conf region = regionEscalate (get_risk_level label conf none) := by
  unfold get_risk_level
  rw [isHighRiskRegion_none, hr]
  simp only [Bool.false_eq_true, if_false, if_true, if_neg h]
  by_cases hm : hasMEL label = true ∧ urgent_threshold < conf
  · rw [if_pos hm, if_pos hm]; rfl
  · rw [if_neg hm, if_neg hm]

/-- In `_assess_risk` a high-risk region only lifts `LOW` to `MEDIUM`
relative to the region-free answer. -/
theorem assess_risk_region (label : String) (conf : ℚ) (region : Option String)
    (hr : isHighRiskRegion region = true) :
    (assess_risk label conf region).risk_level =
      (if (assess_risk label conf none).risk_level = .LOW then RiskTier.MEDIUM
       else (assess_risk label conf none).risk_level) := by
  rw [assess_risk_closed, assess_risk_closed]
  simp [hr, isHighRiskRegion_none]

theorem isPendingWithId_iff (image_id : Nat) (c : LesionCase) :
    isPendingWithId image_id c = true ↔ c.image_id = image_id ∧ c.status = .pending := by
  simp [isPendingWithId]

/-- A successful cadre review submission rewrites the table by the row
transformer and nothing else. -/
theorem submit_cadre_review_ok_eq (db : LesionDB) (image_id cadre_id : Nat)
    (d : CadreReviewCreate) (db2 : LesionDB)
    (hs : submit_cadre_review db image_id cadre_id d = .ok db2) :
    db2 = db.map (cadreRowUpdate image_id cadre_id d) := by
  unfold submit_cadre_review at hs
  cases hfind : db.find? (isPendingWithId image_id) <;> rw [hfind] at hs
  · cases hs
  · simp only [Except.ok.injEq] at hs
    exact hs.symm

/-- The cadre endpoint's row transformer preserves the one-review
invariant: it reviews only pending rows, which have no review yet. -/
theorem cadreRowUpdate_inv (image_id cadre_id : Nat) (d : CadreReviewCreate)
    (c : LesionCase) (h : cadreInv c) : cadreInv (cadreRowUpdate image_id cadre_id d c) := by
  unfold cadreRowUpdate
  by_cases hp : isPendingWithId image_id c
  · rw [if_pos hp]
    have hpend : c.status = .pending := ((isPendingWithId_iff _ _).mp hp).2
    have hrev : c.reviews = [] := h.1 hpend
    unfold applyCadreReview
    by_cases he : d.escalate_to_doctor <;> simp [he, hrev, cadreInv]
  · rw [if_neg hp]
    exact h

/-- Any sequence of cadre review submissions preserves the one-review
invariant on every row of the table. -/
theorem run_cadre_reviews_inv (ops : List (Nat × Nat × CadreReviewCreate)) :
    ∀ db : LesionDB, dbCadreInv db → dbCadreInv (run_cadre_reviews db ops) := by
  induction ops with
  | nil => intro db h; exact h
  | cons op rest ih =>
      intro db h
      obtain ⟨image_id, cadre_id, d⟩ := op
      unfold run_cadre_reviews
      cases hs : submit_cadre_review db image_id cadre_id d with
      | ok db2 =>
          apply ih
          rw [submit_cadre_review_ok_eq db image_id cadre_id d db2 hs]
          intro c2 hc2
          rcases List.mem_map.mp hc2 with ⟨c, hc, rfl⟩
          exact cadreRowUpdate_inv image_id cadre_id d c (h c hc)
      | error e => exact ih db h

end SeekWell

/-! The claim theorems. -/

namespace SeekWell

/-- Claim C1: for every catalog label, every body region (including
none), and every confidence c with 0 ≤ c < 0.4, the risk assessment
returns tier UNCERTAIN with the review flag set — in both `_assess_risk`
and `get_risk_level` the confidence gate takes precedence over the
melanoma urgent override. -/
theorem C1_confidence_gate_overrides (label : String) (conf : ℚ)
    (region : Option String) (hmem : label ∈ classLabels) (h0 : 0 ≤ conf)
    (h : conf < LOW_CONFIDENCE) :
    (assess_risk label conf region).risk_level = .UNCERTAIN ∧
    (assess_risk label conf region).needs_professional_review = true ∧
    get_risk_level label conf region = .UNCERTAIN :=
  ⟨(assess_risk_gate label conf region h).1, (assess_risk_gate label conf region h).2,
   get_risk_level_gate label conf region h⟩

/-- Witness for C1 at the most severe label, confidence 0.35, region
"face". -/
theorem C1_confidence_gate_overrides_witness :
    "MEL (Melanoma)" ∈ classLabels ∧ ((0:ℚ) ≤ 7/20) ∧ ((7:ℚ)/20 < LOW_CONFIDENCE) ∧
    ((assess_risk "MEL (Melanoma)" (7/20) (some "face")).risk_level = .UNCERTAIN ∧
     (assess_risk "MEL (Melanoma)" (7/20) (some "face")).needs_professional_review = true ∧
     get_risk_level "MEL (Melanoma)" (7/20) (some "face") = .UNCERTAIN) :=
  ⟨by decide, by norm_num, by norm_num [LOW_CONFIDENCE],
   C1_confidence_gate_overrides "MEL (Melanoma)" (7/20) (some "face") (by decide)
     (by norm_num) (by norm_num [LOW_CONFIDENCE])⟩

/-- Claim C2: the cadre review endpoint, on a pending unclaimed case,
sets the reviewer, sets status escalated or reviewed per the flag, and
appends exactly one review row; when no pending row with the id exists it
fails with the 404 and commits nothing; consequently any sequence of
submissions leaves every case with at most one cadre review. -/
theorem C2_submit_cadre_review_contract :
    (∀ (c : LesionCase) (cadre_id : Nat) (d : CadreReviewCreate),
        c.status = .pending → c.reviewed_by_cadre = none →
        (applyCadreReview c cadre_id d).reviewed_by_cadre = some cadre_id ∧
        (applyCadreReview c cadre_id d).status =
          (if d.escalate_to_doctor then LesionStatus.escalated else .reviewed) ∧
        (applyCadreReview c cadre_id d).reviews =
          c.reviews ++ [⟨cadre_id, d.review_notes, d.agrees_with_ai, d.escalate_to_doctor⟩]) ∧
    (∀ (db : LesionDB) (image_id cadre_id : Nat) (d : CadreReviewCreate) (c0 : LesionCase),
        db.find? (isPendingWithId image_id) = some c0 →
        submit_cadre_review db image_id cadre_id d =
          .ok (db.map (cadreRowUpdate image_id cadre_id d))) ∧
    (∀ (db : LesionDB) (image_id cadre_id : Nat) (d : CadreReviewCreate),
        (∀ c ∈ db, ¬(c.image_id = image_id ∧ c.status = .pending)) →
        submit_cadre_review db image_id cadre_id d = .error .notFound) ∧
    (∀ (db : LesionDB) (ops : List (Nat × Nat × CadreReviewCreate)),
        dbCadreInv db → dbCadreInv (run_cadre_reviews db ops)) := by
  refine ⟨?_, ?_, ?_, ?_⟩
  · intro c cadre_id d hp hn
    unfold applyCadreReview
    by_cases he : d.escalate_to_doctor <;> simp [he]
  · intro db image_id cadre_id d c0 hfind
    unfold submit_cadre_review
    rw [hfind]
  · intro db image_id cadre_id d h
    unfold submit_cadre_review
    have hnone : db.find? (isPendingWithId image_id) = none := by
      rw [List.find?_eq_none]
      intro c hc hcontra
      exact h c hc ((isPendingWithId_iff _ _).mp hcontra)
    rw [hnone]
  · intro db ops h
    exact run_cadre_reviews_inv ops db h

/-- Witness for C2 on a one-row table holding the fresh pending case. -/
theorem C2_submit_cadre_review_contract_witness :
    freshCase.status = .pending ∧ freshCase.reviewed_by_cadre = none ∧
    ((applyCadreReview freshCase 5 ⟨"ok", true, false⟩).reviewed_by_cadre = some 5 ∧
     (applyCadreReview freshCase 5 ⟨"ok", true, false⟩).status =
       (if (⟨"ok", true, false⟩ : CadreReviewCreate).escalate_to_doctor
        then LesionStatus.escalated else .reviewed) ∧
     (applyCadreReview freshCase 5 ⟨"ok", true, false⟩).reviews =
       freshCase.reviews ++ [⟨5, "ok", true, false⟩]) ∧
    ([freshCase].find? (isPendingWithId 1) = some freshCase) ∧
    (submit_cadre_review [freshCase] 1 5 ⟨"ok", true, false⟩ =
      .ok ([freshCase].map (cadreRowUpdate 1 5 ⟨"ok", true, false⟩))) ∧
    (submit_cadre_review [completedCase] 9 5 ⟨"ok", true, false⟩ = .error .notFound) ∧
    dbCadreInv [freshCase] ∧
    dbCadreInv (run_cadre_reviews [freshCase] [(1, 5, ⟨"ok", true, false⟩)]) :=
  ⟨by decide, by decide,
   C2_submit_cadre_review_contract.1 freshCase 5 ⟨"ok", true, false⟩ (by decide) (by decide),
   by decide,
   C2_submit_cadre_review_contract.2.1 [freshCase] 1 5 ⟨"ok", true, false⟩ freshCase (by decide),
   C2_submit_cadre_review_contract.2.2.1 [completedCase] 9 5 ⟨"ok", true, false⟩ (by decide),
   by unfold dbCadreInv cadreInv; decide,
   C2_submit_cadre_review_contract.2.2.2 [freshCase] [(1, 5, ⟨"ok", true, false⟩)]
     (by unfold dbCadreInv cadreInv; decide)⟩

/-- Claim C3 (amended): the doctor consultation endpoint never succeeds —
its handler references a nonexistent service method, so every call fails
with the internal error and writes nothing — while the crud helper
appends a consultation, overwrites the doctor reviewer and sets status
completed on the matching row without any precondition. -/
theorem C3_doctor_consultation_unchecked :
    (∀ (db : LesionDB) (analysis_id doctor_id : Nat)
        (diagnosis treatment_plan : String) (fu : Option Nat),
        router_submit_doctor_consultation db analysis_id doctor_id diagnosis
          treatment_plan fu = .error .internalError) ∧
    (∀ (image_id doctor_id : Nat) (d : DoctorConsultationCreate) (c : LesionCase),
        c.image_id = image_id →
        (doctorConsultApply image_id doctor_id d c).consultations =
          c.consultations ++ [⟨doctor_id, d.diagnosis, d.treatment_plan, d.urgency_level,
                               d.requires_specialist, d.follow_up_days⟩] ∧
        (doctorConsultApply image_id doctor_id d c).reviewed_by_doctor = some doctor_id ∧
        (doctorConsultApply image_id doctor_id d c).status = .completed) := by
  refine ⟨?_, ?_⟩
  · intro db analysis_id doctor_id diagnosis treatment_plan fu
    rfl
  · intro image_id doctor_id d c h
    unfold doctorConsultApply
    simp [h]

/-- Witness for C3: the endpoint fails on a table holding a fresh valid
case, and the crud helper is exercised on the already-completed fixture
case. -/
theorem C3_doctor_consultation_unchecked_witness :
    router_submit_doctor_consultation [freshCase] 1 7 "dx" "tx" none =
      .error .internalError ∧
    completedCase.image_id = 9 ∧
    ((doctorConsultApply 9 8 ⟨"dx2", "tx2", "high", false, some 14⟩ completedCase).consultations =
       completedCase.consultations ++ [⟨8, "dx2", "tx2", "high", false, some 14⟩] ∧
     (doctorConsultApply 9 8 ⟨"dx2", "tx2", "high", false, some 14⟩
        completedCase).reviewed_by_doctor = some 8 ∧
     (doctorConsultApply 9 8 ⟨"dx2", "tx2", "high", false, some 14⟩ completedCase).status =
       .completed) :=
  ⟨C3_doctor_consultation_unchecked.1 [freshCase] 1 7 "dx" "tx" none, by decide,
   C3_doctor_consultation_unchecked.2 9 8 ⟨"dx2", "tx2", "high", false, some 14⟩
     completedCase (by decide)⟩

/-- Claim C3 counterexample: the endpoint fails with the internal error
even on a fresh PENDING case with no doctor reviewer — the claim's
success case never happens — and a second consultation through the crud
helper on an already consulted, completed case succeeds with no error,
appends a second consultation row and overwrites the doctor reviewer, so
a case can carry two DoctorConsultations and no AlreadyConsultedError or
InvalidStateError exists on either path. -/
theorem C3_doctor_consultation_counterexample :
    freshCase.status = .pending ∧
    freshCase.reviewed_by_doctor = none ∧
    router_submit_doctor_consultation [freshCase] 1 7 "dx" "tx" none =
      .error .internalError ∧
    completedCase.status = .completed ∧
    completedCase.reviewed_by_doctor = some 7 ∧
    completedCase.consultations.length = 1 ∧
    (create_doctor_consultation [completedCase] 9 8
        ⟨"dx2", "tx2", "high", false, some 14⟩).map (fun c => c.consultations.length) = [2] ∧
    (create_doctor_consultation [completedCase] 9 8
        ⟨"dx2", "tx2", "high", false, some 14⟩).map (fun c => c.reviewed_by_doctor) =
      [some 8] :=
  ⟨by decide, by decide, rfl, by decide, by decide, by decide, by decide, by decide⟩

/-- Claim C4 (amended): the cadre endpoint leaves completed cases
untouched and doctor consultation only moves a status forward to
completed, but `update_skin_lesion_status` writes any requested status
unconditionally on the matching row. -/
theorem C4_status_monotonic_paths :
    (∀ (image_id cadre_id : Nat) (d : CadreReviewCreate) (c : LesionCase),
        c.status = .completed → cadreRowUpdate image_id cadre_id d c = c) ∧
    (∀ (image_id doctor_id : Nat) (d : DoctorConsultationCreate) (c : LesionCase),
        (doctorConsultApply image_id doctor_id d c).status = c.status ∨
        (doctorConsultApply image_id doctor_id d c).status = .completed) ∧
    (∀ (image_id : Nat) (st : LesionStatus) (rb : Option Nat) (c : LesionCase),
        c.image_id = image_id → (updateStatusRow image_id st rb c).status = st) := by
  refine ⟨?_, ?_, ?_⟩
  · intro image_id cadre_id d c h
    unfold cadreRowUpdate isPendingWithId
    rw [h]
    simp
  · intro image_id doctor_id d c
    unfold doctorConsultApply
    by_cases h : c.image_id == image_id
    · right; simp [h]
    · left; simp [h]
  · intro image_id st rb c h
    unfold updateStatusRow
    simp only [h, beq_self_eq_true, if_true]
    by_cases h2 : rb.isSome && (st == .reviewed || st == .completed) <;> simp [h2]

/-- Witness for C4 on the completed fixture case. -/
theorem C4_status_monotonic_paths_witness :
    completedCase.status = .completed ∧
    cadreRowUpdate 9 5 ⟨"x", true, false⟩ completedCase = completedCase ∧
    ((doctorConsultApply 9 8 ⟨"d", "t", "u", false, none⟩ completedCase).status =
       completedCase.status ∨
     (doctorConsultApply 9 8 ⟨"d", "t", "u", false, none⟩ completedCase).status =
       .completed) ∧
    completedCase.image_id = 9 ∧
    (updateStatusRow 9 .completed none completedCase).status = .completed :=
  ⟨by decide,
   C4_status_monotonic_paths.1 9 5 ⟨"x", true, false⟩ completedCase (by decide),
   C4_status_monotonic_paths.2.1 9 8 ⟨"d", "t", "u", false, none⟩ completedCase,
   by decide,
   C4_status_monotonic_paths.2.2 9 .completed none completedCase (by decide)⟩

/-- Claim C4 counterexample: `update_skin_lesion_status` moves the
completed fixture case back to pending. -/
theorem C4_status_monotonic_counterexample :
    completedCase.status = .completed ∧
    update_skin_lesion_status [completedCase] 9 .pending none =
      [{ completedCase with status := .pending }] ∧
    ({ completedCase with status := .pending }).status = .pending := by decide

end SeekWell

namespace SeekWell

/-- Claim C5 (amended): at or above the 0.4 gate in a high-risk region,
`get_risk_level` raises LOW to MEDIUM and MEDIUM to HIGH (one
`regionEscalate` step over the region-free result), while `_assess_risk`
only raises LOW to MEDIUM and leaves MEDIUM, HIGH and URGENT unchanged. -/
theorem C5_region_escalation (label : String) (conf : ℚ) (region : Option String)
    (hmem : label ∈ classLabels) (hc : LOW_CONFIDENCE ≤ conf)
    (hr : isHighRiskRegion region = true) :
    get_risk_level label conf region = regionEscalate (get_risk_level label conf none) ∧
    (assess_risk label conf region).risk_level =
      (if (assess_risk label conf none).risk_level = .LOW then RiskTier.MEDIUM
       else (assess_risk label conf none).risk_level) :=
  ⟨get_risk_level_region_escalate label conf region (not_lt.mpr hc) hr,
   assess_risk_region label conf region hr⟩

/-- Witness for C5 at the benign nevus label, confidence 0.5, region
"face". -/
theorem C5_region_escalation_witness :
    "NEV (Nevus/Mole)" ∈ classLabels ∧ (LOW_CONFIDENCE ≤ (1:ℚ)/2) ∧
    isHighRiskRegion (some "face") = true ∧
    (get_risk_level "NEV (Nevus/Mole)" (1/2) (some "face") =
       regionEscalate (get_risk_level "NEV (Nevus/Mole)" (1/2) none) ∧
     (assess_risk "NEV (Nevus/Mole)" (1/2) (some "face")).risk_level =
       (if (assess_risk "NEV (Nevus/Mole)" (1/2) none).risk_level = .LOW
        then RiskTier.MEDIUM
        else (assess_risk "NEV (Nevus/Mole)" (1/2) none).risk_level)) :=
  ⟨by decide, by norm_num [LOW_CONFIDENCE], isHighRiskRegion_face,
   C5_region_escalation "NEV (Nevus/Mole)" (1/2) (some "face") (by decide)
     (by norm_num [LOW_CONFIDENCE]) isHighRiskRegion_face⟩

/-- Claim C5 counterexample: label ACK has base MEDIUM; at confidence 0.9
on region "face", `_assess_risk` answers MEDIUM, not the claimed HIGH
(which `get_risk_level` does answer). -/
theorem C5_region_escalation_counterexample :
    riskLevels "ACK (Actinic keratoses)" = some .MEDIUM ∧
    isHighRiskRegion (some "face") = true ∧
    (LOW_CONFIDENCE ≤ (9:ℚ)/10) ∧
    (assess_risk "ACK (Actinic keratoses)" (9/10) (some "face")).risk_level = .MEDIUM ∧
    get_risk_level "ACK (Actinic keratoses)" (9/10) (some "face") = .HIGH := by
  refine ⟨riskLevels_ACK, isHighRiskRegion_face, by norm_num [LOW_CONFIDENCE], ?_, ?_⟩
  · rw [assess_risk_closed]
    rw [riskLevels_ACK, isHighRiskRegion_face]
    norm_num [LOW_CONFIDENCE]
  · unfold get_risk_level
    rw [riskLevels_ACK, isHighRiskRegion_face, hasMEL_ACK]
    norm_num [LOW_CONFIDENCE, regionEscalate]

/-- Claim C6 (amended): the engine never fails. An unknown non-melanoma
label yields UNCERTAIN from `get_risk_level` and a MEDIUM base in
`_assess_risk`, and a confidence outside [0,1] flows through the same
threshold comparisons (melanoma at any confidence at or above the gate,
even above 1, yields URGENT). -/
theorem C6_engine_total :
    (∀ (label : String) (conf : ℚ) (region : Option String),
        riskLevels label = none → hasMEL label = false →
        get_risk_level label conf region = .UNCERTAIN) ∧
    (∀ (label : String) (conf : ℚ) (region : Option String),
        riskLevels label = none →
        (assess_risk label conf region).base_risk = .MEDIUM) ∧
    (∀ (conf : ℚ) (region : Option String), LOW_CONFIDENCE ≤ conf →
        get_risk_level "MEL (Melanoma)" conf region = .URGENT) := by
  refine ⟨?_, ?_, ?_⟩
  · intro label conf region hunk hm
    unfold get_risk_level
    rw [hunk]
    by_cases hr : isHighRiskRegion region = true <;>
      by_cases hc : conf < LOW_CONFIDENCE <;> simp [hr, hc, hm, regionEscalate]
  · intro label conf region hunk
    unfold assess_risk
    simp [hunk]
  · intro conf region hc
    unfold get_risk_level
    rw [hasMEL_MEL, riskLevels_MEL]
    have h1 : ¬ conf < LOW_CONFIDENCE := not_lt.mpr hc
    have h2 : urgent_threshold < conf := by
      have h3 : urgent_threshold < LOW_CONFIDENCE := by
        norm_num [urgent_threshold, LOW_CONFIDENCE]
      exact lt_of_lt_of_le h3 hc
    by_cases hr : isHighRiskRegion region = true <;> simp [hr, h1, h2, regionEscalate]

/-- Witness for C6 at the unknown label "melanoma" (case-sensitive miss)
and the out-of-range confidence 1.5. -/
theorem C6_engine_total_witness :
    riskLevels "melanoma" = none ∧ hasMEL "melanoma" = false ∧
    get_risk_level "melanoma" (1/2) none = .UNCERTAIN ∧
    (assess_risk "melanoma" (1/2) none).base_risk = .MEDIUM ∧
    (LOW_CONFIDENCE ≤ (3:ℚ)/2) ∧
    get_risk_level "MEL (Melanoma)" (3/2) none = .URGENT :=
  ⟨by decide, by decide,
   C6_engine_total.1 "melanoma" (1/2) none (by decide) (by decide),
   C6_engine_total.2.1 "melanoma" (1/2) none (by decide),
   by norm_num [LOW_CONFIDENCE],
   C6_engine_total.2.2 (3/2) none (by norm_num [LOW_CONFIDENCE])⟩

/-- Claim C6 counterexample: the unknown label "melanoma" and the
out-of-range confidence 1.5 both produce ordinary risk tiers; no
UnknownLabelError or InvalidScoreError is ever raised. -/
theorem C6_engine_total_counterexample :
    riskLevels "melanoma" = none ∧
    get_risk_level "melanoma" (1/2) none = .UNCERTAIN ∧
    (assess_risk "melanoma" (1/2) none).base_risk = .MEDIUM ∧
    ((1:ℚ) < 3/2) ∧
    get_risk_level "MEL (Melanoma)" (3/2) none = .URGENT ∧
    (assess_risk "MEL (Melanoma)" (3/2) none).risk_level = .URGENT := by
  have hriskm : riskLevels "melanoma" = none := by decide
  have hmelm : hasMEL "melanoma" = false := by decide
  refine ⟨hriskm, ?_, ?_, by norm_num, ?_, ?_⟩
  · unfold get_risk_level
    rw [hriskm, hmelm, isHighRiskRegion_none]
    norm_num [LOW_CONFIDENCE, regionEscalate]
  · unfold assess_risk
    simp [hriskm]
  · unfold get_risk_level
    rw [hasMEL_MEL, riskLevels_MEL, isHighRiskRegion_none]
    norm_num [LOW_CONFIDENCE, urgent_threshold, regionEscalate]
  · rw [assess_risk_closed, riskLevels_MEL, isHighRiskRegion_none]
    norm_num [LOW_CONFIDENCE]

/-- Claim C7 (amended): the cadre pending queue is the status filter in
storage order (no sort at all); the urgent queue holds exactly the
pending unclaimed URGENT/HIGH cases ordered by assessment creation time
descending (newest first); the lesion-service priority queue is an empty
placeholder. -/
theorem C7_queue_order :
    (∀ db : LesionDB, List.Sublist (get_pending_reviews db) db) ∧
    (∀ db : LesionDB, List.Sorted createdGE (get_urgent_reviews db)) ∧
    (∀ db : LesionDB, ∀ c ∈ get_urgent_reviews db,
        c.status = .pending ∧
        (c.ai_assessment.risk_level = .URGENT ∨ c.ai_assessment.risk_level = .HIGH) ∧
        c.reviewed_by_cadre = none) ∧
    (∀ rl : Option (List RiskTier), get_risk_priority_queue_pending rl = []) := by
  refine ⟨?_, ?_, ?_, ?_⟩
  · intro db
    exact List.filter_sublist db
  · intro db
    exact List.sorted_insertionSort createdGE _
  · intro db c hc
    have hmem : c ∈ db.filter (fun c => c.status == .pending &&
        (c.ai_assessment.risk_level == .URGENT || c.ai_assessment.risk_level == .HIGH) &&
        c.reviewed_by_cadre.isNone) :=
      (List.perm_insertionSort createdGE _).mem_iff.mp hc
    have hp := List.of_mem_filter hmem
    simp only [Bool.and_eq_true, beq_iff_eq, Bool.or_eq_true,
      Option.isNone_iff_eq_none] at hp
    exact ⟨hp.1.1, hp.1.2, hp.2⟩
  · intro rl
    rfl

/-- Witness for C7 on the two-urgent-case fixture table. -/
theorem C7_queue_order_witness :
    List.Sublist (get_pending_reviews [lowOld, urgentNew]) [lowOld, urgentNew] ∧
    List.Sorted createdGE (get_urgent_reviews [urgentOld, urgentNew]) ∧
    urgentOld ∈ get_urgent_reviews [urgentOld, urgentNew] ∧
    (urgentOld.status = .pending ∧
     (urgentOld.ai_assessment.risk_level = .URGENT ∨
      urgentOld.ai_assessment.risk_level = .HIGH) ∧
     urgentOld.reviewed_by_cadre = none) ∧
    get_risk_priority_queue_pending none = [] :=
  ⟨C7_queue_order.1 [lowOld, urgentNew], C7_queue_order.2.1 [urgentOld, urgentNew],
   by decide,
   C7_queue_order.2.2.1 [urgentOld, urgentNew] urgentOld (by decide),
   C7_queue_order.2.2.2 none⟩

/-- Claim C7 counterexample: two URGENT cases come back newest first in
the urgent queue (violating oldest-first within a tier), and the pending
queue lists a LOW case before an URGENT one in storage order (no risk
priority sort). -/
theorem C7_queue_order_counterexample :
    urgentOld.upload_timestamp < urgentNew.upload_timestamp ∧
    urgentOld.ai_assessment.risk_level = .URGENT ∧
    urgentNew.ai_assessment.risk_level = .URGENT ∧
    get_urgent_reviews [urgentOld, urgentNew] = [urgentNew, urgentOld] ∧
    lowOld.ai_assessment.risk_level = .LOW ∧
    get_pending_reviews [lowOld, urgentNew] = [lowOld, urgentNew] := by decide

/-- Claim C9 (amended): serialized, the first submission on a fresh
pending case succeeds and the second fails its pending check; but the
handler has no atomic conditional update, so in the overlapped schedule
where both read before either writes, both succeed, two review rows are
inserted, and the last writer's reviewer id and status stand (still one
of reviewed or escalated). -/
theorem C9_race_schedules (c : LesionCase) (r1 r2 : Nat) (d1 d2 : CadreReviewCreate)
    (h : c.status = .pending) :
    (race_serialized c r1 r2 d1 d2).1 = true ∧
    (race_serialized c r1 r2 d1 d2).2.1 = false ∧
    (race_both_read_first c r1 r2 d1 d2).1 = true ∧
    (race_both_read_first c r1 r2 d1 d2).2.1 = true ∧
    (race_both_read_first c r1 r2 d1 d2).2.2.reviews.length = c.reviews.length + 2 ∧
    (race_both_read_first c r1 r2 d1 d2).2.2.reviewed_by_cadre = some r2 ∧
    ((race_both_read_first c r1 r2 d1 d2).2.2.status = .reviewed ∨
     (race_both_read_first c r1 r2 d1 d2).2.2.status = .escalated) := by
  unfold race_serialized race_both_read_first cadre_review_check applyCadreReview
  by_cases e1 : d1.escalate_to_doctor <;> by_cases e2 : d2.escalate_to_doctor <;>
    simp [h, e1, e2]

/-- Witness for C9 on the fresh pending fixture case. -/
theorem C9_race_schedules_witness :
    freshCase.status = .pending ∧
    ((race_serialized freshCase 10 20 ⟨"a", true, false⟩ ⟨"b", false, true⟩).1 = true ∧
     (race_serialized freshCase 10 20 ⟨"a", true, false⟩ ⟨"b", false, true⟩).2.1 = false ∧
     (race_both_read_first freshCase 10 20 ⟨"a", true, false⟩ ⟨"b", false, true⟩).1 = true ∧
     (race_both_read_first freshCase 10 20 ⟨"a", true, false⟩ ⟨"b", false, true⟩).2.1 = true ∧
     (race_both_read_first freshCase 10 20 ⟨"a", true, false⟩
        ⟨"b", false, true⟩).2.2.reviews.length = freshCase.reviews.length + 2 ∧
     (race_both_read_first freshCase 10 20 ⟨"a", true, false⟩
        ⟨"b", false, true⟩).2.2.reviewed_by_cadre = some 20 ∧
     ((race_both_read_first freshCase 10 20 ⟨"a", true, false⟩
         ⟨"b", false, true⟩).2.2.status = .reviewed ∨
      (race_both_read_first freshCase 10 20 ⟨"a", true, false⟩
         ⟨"b", false, true⟩).2.2.status = .escalated)) :=
  ⟨by decide,
   C9_race_schedules freshCase 10 20 ⟨"a", true, false⟩ ⟨"b", false, true⟩ (by decide)⟩

/-- Claim C9 counterexample: in the overlapped schedule on the fresh
pending case both submissions succeed and the case ends with two cadre
reviews — not exactly one success. -/
theorem C9_race_counterexample :
    freshCase.status = .pending ∧ freshCase.reviewed_by_cadre = none ∧
    freshCase.reviews.length = 0 ∧
    (race_both_read_first freshCase 10 20 ⟨"a", true, false⟩ ⟨"b", false, true⟩).1 = true ∧
    (race_both_read_first freshCase 10 20 ⟨"a", true, false⟩ ⟨"b", false, true⟩).2.1 = true ∧
    (race_both_read_first freshCase 10 20 ⟨"a", true, false⟩
       ⟨"b", false, true⟩).2.2.reviews.length = 2 := by decide

/-- Claim C8 (amended): the classifier's follow-up table is URGENT 1,
HIGH 7, MEDIUM 30, LOW 90 with UNCERTAIN defaulting to 30, but the
analysis-history endpoint recomputes its estimate as LOW 30, MEDIUM 14
and 7 for everything else. -/
theorem C8_follow_up_table :
    get_follow_up_days .URGENT = 1 ∧ get_follow_up_days .HIGH = 7 ∧
    get_follow_up_days .MEDIUM = 30 ∧ get_follow_up_days .LOW = 90 ∧
    get_follow_up_days .UNCERTAIN = 30 ∧
    estimated_follow_up_days_history .LOW = 30 ∧
    estimated_follow_up_days_history .MEDIUM = 14 ∧
    estimated_follow_up_days_history .HIGH = 7 ∧
    estimated_follow_up_days_history .URGENT = 7 ∧
    estimated_follow_up_days_history .UNCERTAIN = 7 := by decide

/-- Claim C8 counterexample: the history endpoint reports 7 follow-up
days for URGENT (the claim says 1) and 30 for LOW (the claim says 90). -/
theorem C8_follow_up_counterexample :
    estimated_follow_up_days_history .URGENT = 7 ∧ (7 : Nat) ≠ 1 ∧
    estimated_follow_up_days_history .LOW = 30 ∧ (30 : Nat) ≠ 90 := by decide

/-- Claim C10 (amended): on catalog labels with confidence in [0,1] the
two implementations agree, except when the base risk is MEDIUM, the
region is high-risk and the confidence is at or above the gate. -/
theorem C10_engines_agree (label : String) (conf : ℚ) (region : Option String)
    (hmem : label ∈ classLabels) (h0 : 0 ≤ conf) (h1 : conf ≤ 1)
    (hx : riskLevels label ≠ some .MEDIUM ∨ isHighRiskRegion region = false ∨
          conf < LOW_CONFIDENCE) :
    get_risk_level label conf region = (assess_risk label conf region).risk_level := by
  rw [assess_risk_closed]
  by_cases hc : conf < LOW_CONFIDENCE
  · rw [get_risk_level_gate label conf region hc]
    by_cases hr : isHighRiskRegion region <;> simp [hr, hc]
  · simp only [classLabels, List.mem_cons, List.not_mem_nil, or_false] at hmem
    rcases hmem with rfl | rfl | rfl | rfl | rfl | rfl
    · have hr : isHighRiskRegion region = false := by
        rcases hx with h | h | h
        · exact absurd riskLevels_ACK h
        · exact h
        · exact absurd h hc
      unfold get_risk_level
      rw [riskLevels_ACK, hasMEL_ACK, hr]
      simp [hc]
    · unfold get_risk_level
      rw [riskLevels_BCC, hasMEL_BCC]
      by_cases hr : isHighRiskRegion region <;> simp [hr, hc, regionEscalate]
    · unfold get_risk_level
      rw [riskLevels_MEL, hasMEL_MEL]
      have h2 : urgent_threshold < conf :=
        lt_of_lt_of_le (by norm_num [urgent_threshold, LOW_CONFIDENCE]) (not_lt.mp hc)
      by_cases hr : isHighRiskRegion region <;> simp [hr, hc, h2, regionEscalate]
    · unfold get_risk_level
      rw [riskLevels_NEV, hasMEL_NEV]
      by_cases hr : isHighRiskRegion region <;> simp [hr, hc, regionEscalate]
    · unfold get_risk_level
      rw [riskLevels_SCC, hasMEL_SCC]
      by_cases hr : isHighRiskRegion region <;> simp [hr, hc, regionEscalate]
    · unfold get_risk_level
      rw [riskLevels_SEK, hasMEL_SEK]
      by_cases hr : isHighRiskRegion region <;> simp [hr, hc, regionEscalate]

/-- Witness for C10 at the seborrheic keratosis label on a non-high-risk
region. -/
theorem C10_engines_agree_witness :
    "SEK (Seborrheic keratosis)" ∈ classLabels ∧ ((0:ℚ) ≤ 1/2) ∧ ((1:ℚ)/2 ≤ 1) ∧
    (riskLevels "SEK (Seborrheic keratosis)" ≠ some .MEDIUM ∨
     isHighRiskRegion (some "arm") = false ∨ (1:ℚ)/2 < LOW_CONFIDENCE) ∧
    get_risk_level "SEK (Seborrheic keratosis)" (1/2) (some "arm") =
      (assess_risk "SEK (Seborrheic keratosis)" (1/2) (some "arm")).risk_level :=
  ⟨by decide, by norm_num, by norm_num, Or.inl (by decide),
   C10_engines_agree "SEK (Seborrheic keratosis)" (1/2) (some "arm") (by decide)
     (by norm_num) (by norm_num) (Or.inl (by decide))⟩

/-- Claim C10 counterexample: on ACK at confidence 0.9 in region "face"
`get_risk_level` answers HIGH but `_assess_risk` answers MEDIUM. -/
theorem C10_engines_agree_counterexample :
    riskLevels "ACK (Actinic keratoses)" = some .MEDIUM ∧
    ((0:ℚ) ≤ 9/10) ∧ ((9:ℚ)/10 ≤ 1) ∧
    get_risk_level "ACK (Actinic keratoses)" (9/10) (some "face") = .HIGH ∧
    (assess_risk "ACK (Actinic keratoses)" (9/10) (some "face")).risk_level = .MEDIUM ∧
    RiskTier.HIGH ≠ RiskTier.MEDIUM := by
  refine ⟨riskLevels_ACK, by norm_num, by norm_num, ?_, ?_, by decide⟩
  · unfold get_risk_level
    rw [riskLevels_ACK, isHighRiskRegion_face, hasMEL_ACK]
    norm_num [LOW_CONFIDENCE, regionEscalate]
  · rw [assess_risk_closed]
    rw [riskLevels_ACK, isHighRiskRegion_face]
    norm_num [LOW_CONFIDENCE]

end SeekWell
